import Mathlib

/-!
Verification of the record-management service (FastAPI + MongoDB CRUD over
products and books).

The handlers in `app/routers/products.py` and `app/routers/books.py` are
embedded shallowly as pure functions.  The Mongo collection is a `Store`
(a list of documents plus a fresh-id counter standing for the store's
ObjectId generator); every handler returns its HTTP outcome
(`Except Err α`), the store after the call, and the trace of collection
operations it issued (`List DbOp`), in issue order.  `datetime.utcnow()`
readings are passed in as explicit timestamp arguments (naturals,
microsecond ticks of a monotone clock); Python floats carrying prices are
modelled as rationals; BSON ObjectIds are opaque numeric tokens at the
store level, with the string-level syntax check of `bson.ObjectId.is_valid`
modelled on 24-character hexadecimal strings.
-/

namespace DataSecurityApi

/-- `datetime.utcnow()` readings: microsecond ticks of a monotone clock. -/
abbrev Timestamp := Nat

/-- Hexadecimal digit test (`0-9`, `a-f`, `A-F`), as used by BSON ObjectId
string validation. -/
def isHexChar (c : Char) : Bool :=
  c.isDigit || ('a' ≤ c && c ≤ 'f') || ('A' ≤ c && c ≤ 'F')

/-- `bson.ObjectId.is_valid` on a string argument: exactly 24 characters,
all hexadecimal. -/
def ObjectId.is_valid (s : String) : Bool :=
  s.length == 24 && s.data.all isHexChar

/-- Numeric value of a hexadecimal digit (0 for non-hex characters). -/
def hexVal (c : Char) : Nat :=
  if c.isDigit then c.toNat - '0'.toNat
  else if 'a' ≤ c && c ≤ 'f' then c.toNat - 'a'.toNat + 10
  else if 'A' ≤ c && c ≤ 'F' then c.toNat - 'A'.toNat + 10
  else 0

/-- `ObjectId(s)`: decode a validated id string into the opaque numeric
store token. -/
def ObjectId.ofString (s : String) : Nat :=
  s.data.foldl (fun a c => 16 * a + hexVal c) 0

/-- A stored product/book document (`_id` plus the business fields and the
two server-assigned timestamps). -/
structure ProductDoc where
  id : Nat
  name : String
  description : String
  price : ℚ
  category : String
  stock : Int
  created_at : Timestamp
  updated_at : Timestamp
deriving DecidableEq, Repr

/-- `ProductCreate` (schemas/product.py): all business fields required. -/
structure ProductCreate where
  name : String
  description : String
  price : ℚ
  category : String
  stock : Int
deriving DecidableEq, Repr

/-- The pydantic field constraints on `ProductCreate` / `ProductBase`:
name 1–100 chars, description ≤ 500 chars, price > 0, stock ≥ 0. -/
def ProductCreate.Valid (p : ProductCreate) : Prop :=
  1 ≤ p.name.length ∧ p.name.length ≤ 100 ∧
  p.description.length ≤ 500 ∧ 0 < p.price ∧ 0 ≤ p.stock

instance (p : ProductCreate) : Decidable p.Valid := by
  unfold ProductCreate.Valid; infer_instance

/-- `ProductUpdate` (schemas/product.py): every field optional; `none`
models a field absent from the request body (pydantic `exclude_unset`). -/
structure ProductUpdate where
  name : Option String
  description : Option String
  price : Option ℚ
  category : Option String
  stock : Option Int
deriving DecidableEq, Repr

/-- `not update_data` in the handlers: no field of the partial input was
supplied. -/
def ProductUpdate.isEmpty (u : ProductUpdate) : Bool :=
  u.name.isNone && u.description.isNone && u.price.isNone &&
  u.category.isNone && u.stock.isNone

/-- The Mongo `$set` applied by `update_product` / `update_stock`: the
supplied fields of the partial input plus `updated_at = t`; `_id` and
`created_at` are not part of the set document. -/
def applySet (u : ProductUpdate) (t : Timestamp) (d : ProductDoc) : ProductDoc :=
  { d with
    name := u.name.getD d.name
    description := u.description.getD d.description
    price := u.price.getD d.price
    category := u.category.getD d.category
    stock := u.stock.getD d.stock
    updated_at := t }

/-- The narrow set document of `update_stock`: only `stock` (plus the
`updated_at` refresh applied by `applySet`). -/
def stockSet (stock : Int) : ProductUpdate :=
  { name := none, description := none, price := none, category := none,
    stock := some stock }

/-- `ProductResponse` as produced by `product_helper` / `book_helper`
(the `str()` rendering of the ObjectId is elided: the token is carried). -/
structure ProductResponse where
  id : Nat
  name : String
  description : String
  price : ℚ
  category : String
  stock : Int
  created_at : Timestamp
  updated_at : Timestamp
deriving DecidableEq, Repr

/-- `product_helper` / `book_helper`: project a stored document onto the
response shape. -/
def product_helper (d : ProductDoc) : ProductResponse :=
  { id := d.id, name := d.name, description := d.description,
    price := d.price, category := d.category, stock := d.stock,
    created_at := d.created_at, updated_at := d.updated_at }

/-- One Mongo collection: stored documents in insertion order, plus the
fresh-ObjectId counter of the store. -/
structure Store where
  docs : List ProductDoc
  nextId : Nat
deriving DecidableEq, Repr

/-- Store well-formedness: every stored id was produced by the store's
id generator, hence is below the counter. -/
def Store.WF (s : Store) : Prop := ∀ d ∈ s.docs, d.id < s.nextId

instance (s : Store) : Decidable s.WF := by
  unfold Store.WF; infer_instance

/-- `find_one({"_id": i})`: first document with the given id. -/
def Store.findOne (s : Store) (i : Nat) : Option ProductDoc :=
  s.docs.find? (fun d => d.id == i)

/-- `update_one({"_id": i}, {"$set": ...})` on the document list: apply the
set document to the first matching document only. -/
def updateDocs (i : Nat) (u : ProductUpdate) (t : Timestamp) :
    List ProductDoc → List ProductDoc
  | [] => []
  | d :: ds => if d.id == i then applySet u t d :: ds else d :: updateDocs i u t ds

/-- `update_one({"_id": i}, {"$set": ...})`: the atomic single-document
store-side update; returns the new store and `matched_count`. -/
def Store.updateOne (s : Store) (i : Nat) (u : ProductUpdate) (t : Timestamp) :
    Store × Nat :=
  ({ s with docs := updateDocs i u t s.docs },
   if (s.findOne i).isSome then 1 else 0)

/-- `delete_one({"_id": i})` on the document list: remove the first
matching document only. -/
def deleteDocs (i : Nat) : List ProductDoc → List ProductDoc
  | [] => []
  | d :: ds => if d.id == i then ds else d :: deleteDocs i ds

/-- `delete_one({"_id": i})`: returns the new store and `deleted_count`. -/
def Store.deleteOne (s : Store) (i : Nat) : Store × Nat :=
  ({ s with docs := deleteDocs i s.docs },
   if (s.findOne i).isSome then 1 else 0)

/-- `delete_many({"_id": {"$in": ids}})`: returns the new store and
`deleted_count`. -/
def Store.deleteMany (s : Store) (ids : List Nat) : Store × Nat :=
  (⟨s.docs.filter (fun d => !ids.contains d.id), s.nextId⟩,
   (s.docs.filter (fun d => ids.contains d.id)).length)

/-- One collection round-trip, with the payload the handler sent. -/
inductive DbOp where
  | findOne (id : Nat)
  | findMany
  | insertOne (id : Nat)
  | updateOne (id : Nat) (u : ProductUpdate) (t : Timestamp)
  | deleteOne (id : Nat)
  | deleteMany (ids : List Nat)
  | countDocuments
  | distinct
  | aggregate
deriving DecidableEq, Repr

/-- Whether the round-trip writes to the collection. -/
def DbOp.isWrite : DbOp → Bool
  | .insertOne _ => true
  | .updateOne _ _ _ => true
  | .deleteOne _ => true
  | .deleteMany _ => true
  | _ => false

/-- HTTP-level failure outcomes of a handler.  `badRequest`/`notFound` are
`HTTPException(400)`/`HTTPException(404)` with their detail string;
`crash` marks an unhandled Python exception. -/
inductive Err where
  | badRequest (detail : String)
  | notFound (detail : String)
  | crash (detail : String)
deriving DecidableEq, Repr

/-- The MalformedIdentifier outcome: 400 "Invalid product ID format". -/
def malformedIdError : Err := .badRequest "Invalid product ID format"

/-- The EmptyUpdate outcome: 400 "No fields to update". -/
def emptyUpdateError : Err := .badRequest "No fields to update"

/-- The NotFound outcome of the by-id product handlers. -/
def productNotFound (pid : String) : Err :=
  .notFound ("Product with id " ++ pid ++ " not found")

/-- A handler outcome: HTTP result, store after the call, and the trace of
collection round-trips in issue order. -/
abbrev H (α : Type) : Type := Except Err α × Store × List DbOp

/-- HTTP result of a handler call. -/
def resOf {α : Type} (h : H α) : Except Err α := h.1

/-- Store after a handler call. -/
def storeOf {α : Type} (h : H α) : Store := h.2.1

/-- Collection round-trips issued by a handler call. -/
def traceOf {α : Type} (h : H α) : List DbOp := h.2.2

/-- The write round-trips issued by a handler call. -/
def writesOf {α : Type} (h : H α) : List DbOp := h.2.2.filter DbOp.isWrite

/-- `create_product` (products.py lines 24–45): stamp `created_at` and
`updated_at` with two successive `datetime.utcnow()` readings `t1` and
`t2` (the source calls `utcnow()` twice), insert, re-read the inserted
document, return it. -/
def create_product (s : Store) (p : ProductCreate) (t1 t2 : Timestamp) :
    H ProductResponse :=
  match Store.findOne
      ⟨s.docs ++ [⟨s.nextId, p.name, p.description, p.price, p.category,
        p.stock, t1, t2⟩], s.nextId + 1⟩ s.nextId with
  | some d =>
      (.ok (product_helper d),
       ⟨s.docs ++ [⟨s.nextId, p.name, p.description, p.price, p.category,
         p.stock, t1, t2⟩], s.nextId + 1⟩,
       [.insertOne s.nextId, .findOne s.nextId])
  | none =>
      (.error (.crash "product_helper on None"),
       ⟨s.docs ++ [⟨s.nextId, p.name, p.description, p.price, p.category,
         p.stock, t1, t2⟩], s.nextId + 1⟩,
       [.insertOne s.nextId, .findOne s.nextId])

/-- Truthiness of an optional string parameter (`if category:` /
`if search:` in the source): false for an absent parameter and for the
empty string. -/
def truthy (o : Option String) : Bool :=
  match o with
  | none => false
  | some c => !c.isEmpty

/-- Whether the first character list starts the second. -/
def charsLead : List Char → List Char → Bool
  | [], _ => true
  | _ :: _, [] => false
  | a :: as, b :: bs => a == b && charsLead as bs

/-- Whether the first character list occurs contiguously in the second. -/
def charsContain (pat : List Char) : List Char → Bool
  | [] => pat.isEmpty
  | b :: bs => charsLead pat (b :: bs) || charsContain pat bs

/-- The characters of a string, lower-cased. -/
def lowerData (s : String) : List Char := s.data.map Char.toLower

/-- Case-insensitive containment of `pat` in `hay`: the semantics of the
source's `{"$regex": pat, "$options": "i"}` for patterns free of regex
metacharacters. -/
def containsCI (hay pat : String) : Bool :=
  charsContain (lowerData pat) (lowerData hay)

/-- The claim-side reading of the list filter, for the refinement
comparison of C7: the conjunction of exact category match, the optional
price bounds, and the case-insensitive substring search over name or
description (substring spelt out as a list decomposition of the
lower-cased characters). -/
def SpecMatch (category : Option String) (min_price max_price : Option ℚ)
    (search : Option String) (d : ProductDoc) : Prop :=
  (∀ c, category = some c → d.category = c) ∧
  (∀ m, min_price = some m → m ≤ d.price) ∧
  (∀ m, max_price = some m → d.price ≤ m) ∧
  (∀ q, search = some q →
    (∃ l r, lowerData d.name = l ++ lowerData q ++ r) ∨
    (∃ l r, lowerData d.description = l ++ lowerData q ++ r))

/-- The filter document built by `get_products` (products.py lines 69–86):
conjunction of exact category match (when the parameter is truthy), the
`$gte`/`$lte` price bounds (when present), and the `$or` of the two
case-insensitive searches (when the parameter is truthy). -/
def matchesFilter (category : Option String) (min_price max_price : Option ℚ)
    (search : Option String) (d : ProductDoc) : Bool :=
  (if truthy category then d.category == category.getD "" else true) &&
  (match min_price with
   | some m => decide (m ≤ d.price)
   | none => true) &&
  (match max_price with
   | some m => decide (d.price ≤ m)
   | none => true) &&
  (if truthy search then
     containsCI d.name (search.getD "") || containsCI d.description (search.getD "")
   else true)

/-- Insert a document into a list kept in descending `created_at` order. -/
def insertDesc (d : ProductDoc) : List ProductDoc → List ProductDoc
  | [] => [d]
  | x :: xs =>
      if x.created_at ≤ d.created_at then d :: x :: xs else x :: insertDesc d xs

/-- The source's `.sort("created_at", -1)`: sort descending by
`created_at` (insertion sort). -/
def sortByNewest : List ProductDoc → List ProductDoc
  | [] => []
  | d :: ds => insertDesc d (sortByNewest ds)

/-- The documents served by `get_products`: filter, sort newest-first,
then `.skip(skip).limit(limit)`. -/
def pageOf (s : Store) (skip limit : Nat) (category : Option String)
    (min_price max_price : Option ℚ) (search : Option String) : List ProductDoc :=
  ((sortByNewest (s.docs.filter (matchesFilter category min_price max_price search))).drop
    skip).take limit

/-- `get_products` (products.py lines 48–92): filtered, paginated,
newest-first listing; `skip` and `limit` arrive already validated by
`Query(0, ge=0)` / `Query(10, ge=1, le=100)`. -/
def get_products (s : Store) (skip limit : Nat) (category : Option String)
    (min_price max_price : Option ℚ) (search : Option String) :
    H (List ProductResponse) :=
  (.ok ((pageOf s skip limit category min_price max_price search).map product_helper),
   s, [.findMany])

/-- `get_product` (products.py lines 95–117): reject a malformed id with
400 before any collection round-trip; otherwise look the document up and
map absence to 404. -/
def get_product (s : Store) (product_id : String) : H ProductResponse :=
  if !ObjectId.is_valid product_id then
    (.error malformedIdError, s, [])
  else
    match s.findOne (ObjectId.ofString product_id) with
    | none =>
        (.error (productNotFound product_id), s,
         [.findOne (ObjectId.ofString product_id)])
    | some d =>
        (.ok (product_helper d), s, [.findOne (ObjectId.ofString product_id)])

/-- `get_products_by_category` (products.py lines 120–140): exact category
filter with `.skip(skip).limit(limit)` and no sort; an empty page is
mapped to 404. -/
def get_products_by_category (s : Store) (category_name : String)
    (skip limit : Nat) : H (List ProductResponse) :=
  if (((s.docs.filter (fun d => d.category == category_name)).drop skip).take
      limit).isEmpty then
    (.error (.notFound ("No products found in category: " ++ category_name)),
     s, [.findMany])
  else
    (.ok ((((s.docs.filter (fun d => d.category == category_name)).drop skip).take
       limit).map product_helper), s, [.findMany])

/-- Tail of `update_product` after its checks (products.py lines 174–186):
issue the atomic `$set` update, re-read the document, return it. -/
def updateAndReturn (s : Store) (oid : Nat) (u : ProductUpdate)
    (t : Timestamp) : H ProductResponse :=
  match (s.updateOne oid u t).1.findOne oid with
  | some d =>
      (.ok (product_helper d), (s.updateOne oid u t).1,
       [.findOne oid, .updateOne oid u t, .findOne oid])
  | none =>
      (.error (.crash "product_helper on None"), (s.updateOne oid u t).1,
       [.findOne oid, .updateOne oid u t, .findOne oid])

/-- `update_product` (products.py lines 143–186): reject a malformed id
with 400 before any round-trip; 404 when the existence check fails; 400
"No fields to update" when the partial input has no field set; otherwise
apply the single atomic `$set` update and return the re-read document. -/
def update_product (s : Store) (product_id : String) (u : ProductUpdate)
    (t : Timestamp) : H ProductResponse :=
  if !ObjectId.is_valid product_id then
    (.error malformedIdError, s, [])
  else
    match s.findOne (ObjectId.ofString product_id) with
    | none =>
        (.error (productNotFound product_id), s,
         [.findOne (ObjectId.ofString product_id)])
    | some _ =>
        if u.isEmpty then
          (.error emptyUpdateError, s, [.findOne (ObjectId.ofString product_id)])
        else
          updateAndReturn s (ObjectId.ofString product_id) u t

/-- The PATCH handler of products.py (lines 189–194), named
`partial_update_product` in the source: delegates to `update_product`. -/
def patch_product (s : Store) (product_id : String) (u : ProductUpdate)
    (t : Timestamp) : H ProductResponse :=
  update_product s product_id u t

/-- `update_stock` (products.py lines 197–222): reject a malformed id with
400; issue the atomic `$set` of `stock` and `updated_at`; 404 when
`matched_count == 0`; otherwise return the re-read document. -/
def update_stock (s : Store) (product_id : String) (stock : Int)
    (t : Timestamp) : H ProductResponse :=
  if !ObjectId.is_valid product_id then
    (.error malformedIdError, s, [])
  else
    if (s.updateOne (ObjectId.ofString product_id) (stockSet stock) t).2 == 0 then
      (.error (productNotFound product_id),
       (s.updateOne (ObjectId.ofString product_id) (stockSet stock) t).1,
       [.updateOne (ObjectId.ofString product_id) (stockSet stock) t])
    else
      match (s.updateOne (ObjectId.ofString product_id) (stockSet stock) t).1.findOne
          (ObjectId.ofString product_id) with
      | some d =>
          (.ok (product_helper d),
           (s.updateOne (ObjectId.ofString product_id) (stockSet stock) t).1,
           [.updateOne (ObjectId.ofString product_id) (stockSet stock) t,
            .findOne (ObjectId.ofString product_id)])
      | none =>
          (.error (.crash "product_helper on None"),
           (s.updateOne (ObjectId.ofString product_id) (stockSet stock) t).1,
           [.updateOne (ObjectId.ofString product_id) (stockSet stock) t,
            .findOne (ObjectId.ofString product_id)])

/-- `delete_product` (products.py lines 225–246): reject a malformed id
with 400; delete; 404 when `deleted_count == 0`. -/
def delete_product (s : Store) (product_id : String) : H Unit :=
  if !ObjectId.is_valid product_id then
    (.error malformedIdError, s, [])
  else
    if (s.deleteOne (ObjectId.ofString product_id)).2 == 0 then
      (.error (productNotFound product_id),
       (s.deleteOne (ObjectId.ofString product_id)).1,
       [.deleteOne (ObjectId.ofString product_id)])
    else
      (.ok (), (s.deleteOne (ObjectId.ofString product_id)).1,
       [.deleteOne (ObjectId.ofString product_id)])

/-- `delete_products` (products.py lines 249–273): keep only the
syntactically valid ids, silently discarding the rest; 400 when none
remain; otherwise bulk-delete and report `deleted_count`. -/
def delete_products (s : Store) (product_ids : List String) : H Nat :=
  if ((product_ids.filter ObjectId.is_valid).map ObjectId.ofString).isEmpty then
    (.error (.badRequest "No valid product IDs provided"), s, [])
  else
    (.ok (s.deleteMany ((product_ids.filter ObjectId.is_valid).map ObjectId.ofString)).2,
     (s.deleteMany ((product_ids.filter ObjectId.is_valid).map ObjectId.ofString)).1,
     [.deleteMany ((product_ids.filter ObjectId.is_valid).map ObjectId.ofString)])

/-- `get_product_count` (products.py lines 278–288): count with the
optional exact-category filter (ignored when the parameter is not
truthy); the response also echoes the category parameter. -/
def get_product_count (s : Store) (category : Option String) :
    H (Nat × Option String) :=
  (.ok (if truthy category then
          (s.docs.filter (fun d => d.category == category.getD "")).length
        else s.docs.length, category),
   s, [.countDocuments])

/-- `get_categories` (products.py lines 291–300): the distinct category
labels and their number. -/
def get_categories (s : Store) : H (List String × Nat) :=
  (.ok ((s.docs.map (fun d => d.category)).dedup,
        (s.docs.map (fun d => d.category)).dedup.length),
   s, [.distinct])

/-- The documents entering the `$match` stage of `get_price_range`:
filtered by category when the parameter is truthy, all documents
otherwise. -/
def statsDocs (s : Store) (category : Option String) : List ProductDoc :=
  if truthy category then s.docs.filter (fun d => d.category == category.getD "")
  else s.docs

/-- `round(x, 2)` on the price average, modelled on rationals. -/
def round2 (q : ℚ) : ℚ := (round (q * 100) : ℤ) / 100

/-- The `$group` payload of `get_price_range`: min, max, rounded average
of `price` and the group size. -/
structure PriceStats where
  min_price : ℚ
  max_price : ℚ
  avg_price : ℚ
  total_products : Nat
deriving DecidableEq, Repr

/-- `get_price_range` (products.py lines 303–336): aggregate min, max,
average (rounded to 2 places) of `price` over the optionally
category-filtered documents; an empty aggregation result is answered with
the "No products found" message, modelled as `.ok none`; a success echoes
the category parameter. -/
def get_price_range (s : Store) (category : Option String) :
    H (Option (PriceStats × Option String)) :=
  match statsDocs s category with
  | [] => (.ok none, s, [.aggregate])
  | d :: rest =>
      (.ok (some
        ({ min_price := ((d :: rest).map (fun x => x.price)).foldl min d.price
           max_price := ((d :: rest).map (fun x => x.price)).foldl max d.price
           avg_price := round2 ((((d :: rest).map (fun x => x.price)).sum) /
             (((d :: rest).length : ℚ)))
           total_products := (d :: rest).length }, category)),
       s, [.aggregate])

/-- `BookCreate` (schemas/book.py): identical field set and constraints to
`ProductCreate`. -/
structure BookCreate where
  name : String
  description : String
  price : ℚ
  category : String
  stock : Int
deriving DecidableEq, Repr

/-- The pydantic field constraints on `BookCreate` / `BookBase`. -/
def BookCreate.Valid (b : BookCreate) : Prop :=
  1 ≤ b.name.length ∧ b.name.length ≤ 100 ∧
  b.description.length ≤ 500 ∧ 0 < b.price ∧ 0 ≤ b.stock

instance (b : BookCreate) : Decidable b.Valid := by
  unfold BookCreate.Valid; infer_instance

/-- `create_book` (books.py lines 24–36): same logic as `create_product`,
against the books collection; `utcnow()` is again read twice. -/
def create_book (s : Store) (b : BookCreate) (t1 t2 : Timestamp) :
    H ProductResponse :=
  match Store.findOne
      ⟨s.docs ++ [⟨s.nextId, b.name, b.description, b.price, b.category,
        b.stock, t1, t2⟩], s.nextId + 1⟩ s.nextId with
  | some d =>
      (.ok (product_helper d),
       ⟨s.docs ++ [⟨s.nextId, b.name, b.description, b.price, b.category,
         b.stock, t1, t2⟩], s.nextId + 1⟩,
       [.insertOne s.nextId, .findOne s.nextId])
  | none =>
      (.error (.crash "book_helper on None"),
       ⟨s.docs ++ [⟨s.nextId, b.name, b.description, b.price, b.category,
         b.stock, t1, t2⟩], s.nextId + 1⟩,
       [.insertOne s.nextId, .findOne s.nextId])

/-- `get_books` (books.py lines 39–47): list every book newest-first, with
no filtering and no pagination parameters. -/
def get_books (s : Store) : H (List ProductResponse) :=
  (.ok ((sortByNewest s.docs).map product_helper), s, [.findMany])

/-- The second `get_books` of books.py (lines 50–58): names-only listing. -/
def get_books_names (s : Store) : H (List String) :=
  (.ok ((sortByNewest s.docs).map (fun d => d.name)), s, [.findMany])

/-- The endpoint kinds a resource router can offer. -/
inductive OpKind where
  | create | listWithFilter | listAll | listNames | findById | listByCategory
  | updateById | patchById | updateStock | deleteById | deleteManyOp
  | countStat | categoriesStat | priceStats
deriving DecidableEq, Repr

/-- The endpoints defined in products.py, in source order. -/
def productsRouterOps : List OpKind :=
  [.create, .listWithFilter, .findById, .listByCategory, .updateById,
   .patchById, .updateStock, .deleteById, .deleteManyOp, .countStat,
   .categoriesStat, .priceStats]

/-- The endpoints defined in books.py, in source order. -/
def booksRouterOps : List OpKind :=
  [.create, .listAll, .listNames]

/-- The validity predicate of the `skip` query parameter
(`Query(0, ge=0)`). -/
def validSkip (skip : Int) : Bool := decide (0 ≤ skip)

/-- The validity predicate of the `limit` query parameter
(`Query(10, ge=1, le=100)`). -/
def validLimit (limit : Int) : Bool := decide (1 ≤ limit ∧ limit ≤ 100)

/-- The default of the `skip` query parameter. -/
def defaultSkip : Int := 0

/-- The default of the `limit` query parameter. -/
def defaultLimit : Int := 10

instance {ε α : Type} [DecidableEq ε] [DecidableEq α] :
    DecidableEq (Except ε α) := fun a b =>
  match a, b with
  | .ok x, .ok y => decidable_of_iff (x = y) (by simp)
  | .error x, .error y => decidable_of_iff (x = y) (by simp)
  | .ok _, .error _ => isFalse (by simp)
  | .error _, .ok _ => isFalse (by simp)

/-- An empty collection whose id counter starts at 0. -/
def emptyStore : Store := ⟨[], 0⟩

/-- A concrete stored document, used in the closed instances below. -/
def sampleDoc : ProductDoc := ⟨0, "Pen", "Blue ink", 2, "office", 100, 3, 4⟩

/-- A concrete one-document collection holding `sampleDoc`. -/
def sampleStore : Store := ⟨[sampleDoc], 1⟩

/-- A concrete valid create input. -/
def sampleCreate : ProductCreate := ⟨"Pen", "Blue ink", 2, "office", 100⟩

/-- A concrete valid book create input. -/
def sampleBook : BookCreate := ⟨"Dune", "Desert planet", 5, "fiction", 3⟩

/-- A syntactically valid id string decoding to token 0 (`sampleDoc`). -/
def zeroIdStr : String := "000000000000000000000000"

/-- A syntactically valid id string decoding to token 255, unused in
`sampleStore`. -/
def unusedIdStr : String := "0000000000000000000000ff"

end DataSecurityApi

namespace DataSecurityApi

theorem find?_id_append (l : List ProductDoc) (d : ProductDoc) (n : Nat)
    (h : ∀ x ∈ l, x.id < n) (hd : d.id = n) :
    (l ++ [d]).find? (fun x => x.id == n) = some d := by
  induction l with
  | nil => simp [List.find?, hd]
  | cons x xs ih =>
      have hx : x.id ≠ n := Nat.ne_of_lt (h x (by simp))
      simp only [List.cons_append, List.find?]
      rw [show (x.id == n) = false by simpa using hx]
      exact ih (fun y hy => h y (by simp [hy]))

/-- C1, amended: the record returned by `create_product` / `create_book`
carries `created_at = t1` and `updated_at = t2`, the two successive
clock readings (hence `created_at ≤ updated_at`, equality not
guaranteed), together with the store's freshly assigned, previously
unseen id. -/
theorem C1_amended :
    ∀ (s : Store) (p : ProductCreate) (b : BookCreate) (t1 t2 : Timestamp),
      Store.WF s → p.Valid → b.Valid → t1 ≤ t2 →
      (∃ r, resOf (create_product s p t1 t2) = .ok r ∧
        r.created_at = t1 ∧ r.updated_at = t2 ∧ r.created_at ≤ r.updated_at ∧
        r.id = s.nextId ∧ ∀ d ∈ s.docs, d.id ≠ r.id) ∧
      (∃ r, resOf (create_book s b t1 t2) = .ok r ∧
        r.created_at = t1 ∧ r.updated_at = t2 ∧ r.created_at ≤ r.updated_at ∧
        r.id = s.nextId ∧ ∀ d ∈ s.docs, d.id ≠ r.id) := by
  intro s p b t1 t2 hWF _hp _hb ht
  constructor
  · refine ⟨product_helper ⟨s.nextId, p.name, p.description, p.price, p.category, p.stock, t1, t2⟩, ?_, rfl, rfl, ht, rfl, ?_⟩
    · have hf := find?_id_append s.docs
        ⟨s.nextId, p.name, p.description, p.price, p.category, p.stock, t1, t2⟩
        s.nextId hWF rfl
      simp only [create_product, Store.findOne, resOf]
      rw [hf]
    · intro d hd
      exact Nat.ne_of_lt (hWF d hd)
  · refine ⟨product_helper ⟨s.nextId, b.name, b.description, b.price, b.category, b.stock, t1, t2⟩, ?_, rfl, rfl, ht, rfl, ?_⟩
    · have hf := find?_id_append s.docs
        ⟨s.nextId, b.name, b.description, b.price, b.category, b.stock, t1, t2⟩
        s.nextId hWF rfl
      simp only [create_book, Store.findOne, resOf]
      rw [hf]
    · intro d hd
      exact Nat.ne_of_lt (hWF d hd)

end DataSecurityApi

namespace DataSecurityApi

/-- C1, counterexample: on a valid input, with the clock advancing one
tick between the two `utcnow()` readings of `create_product`, the
returned record has `created_at ≠ updated_at`. -/
theorem C1_counterexample :
    sampleCreate.Valid ∧
    (resOf (create_product emptyStore sampleCreate 0 1)).map
      (fun r => r.created_at == r.updated_at) = .ok false := by decide

/-- C1, witness for the amended theorem at a concrete input. -/
theorem C1_witness :
    Store.WF sampleStore ∧ sampleCreate.Valid ∧ sampleBook.Valid ∧
    (5 : Timestamp) ≤ 6 ∧
    ((∃ r, resOf (create_product sampleStore sampleCreate 5 6) = .ok r ∧
        r.created_at = 5 ∧ r.updated_at = 6 ∧ r.created_at ≤ r.updated_at ∧
        r.id = sampleStore.nextId ∧ ∀ d ∈ sampleStore.docs, d.id ≠ r.id) ∧
     (∃ r, resOf (create_book sampleStore sampleBook 5 6) = .ok r ∧
        r.created_at = 5 ∧ r.updated_at = 6 ∧ r.created_at ≤ r.updated_at ∧
        r.id = sampleStore.nextId ∧ ∀ d ∈ sampleStore.docs, d.id ≠ r.id)) :=
  ⟨by decide, by decide, by decide, by decide,
   C1_amended sampleStore sampleCreate sampleBook 5 6 (by decide) (by decide)
     (by decide) (by decide)⟩

/-- C2, counterexample: the books router offers none of find-by-id,
filtered listing, update-by-id, delete-by-id, delete-many or price
statistics. -/
theorem C2_counterexample :
    ¬ (OpKind.findById ∈ booksRouterOps ∧
       OpKind.listWithFilter ∈ booksRouterOps ∧
       OpKind.updateById ∈ booksRouterOps ∧
       OpKind.deleteById ∈ booksRouterOps ∧
       OpKind.deleteManyOp ∈ booksRouterOps ∧
       OpKind.priceStats ∈ booksRouterOps) := by decide

/-- C2, amended: the products router offers find-by-id,
find-with-filter-and-pagination (skip ≥ 0, limit 1–100 defaulting to
10), update-by-id, delete-by-id, delete-many and the three statistics
endpoints; the books router offers only create, list-all (without
filter or pagination) and a names-only listing. -/
theorem C2_amended :
    (OpKind.findById ∈ productsRouterOps ∧
     OpKind.listWithFilter ∈ productsRouterOps ∧
     OpKind.updateById ∈ productsRouterOps ∧
     OpKind.deleteById ∈ productsRouterOps ∧
     OpKind.deleteManyOp ∈ productsRouterOps ∧
     OpKind.countStat ∈ productsRouterOps ∧
     OpKind.categoriesStat ∈ productsRouterOps ∧
     OpKind.priceStats ∈ productsRouterOps) ∧
    booksRouterOps = [OpKind.create, OpKind.listAll, OpKind.listNames] ∧
    validSkip defaultSkip = true ∧ validLimit defaultLimit = true ∧
    defaultLimit = 10 ∧
    (∀ k : Int, validSkip k = true ↔ 0 ≤ k) ∧
    (∀ l : Int, validLimit l = true ↔ 1 ≤ l ∧ l ≤ 100) := by
  refine ⟨by decide, rfl, by decide, by decide, rfl, ?_, ?_⟩
  · intro k; simp [validSkip]
  · intro l; simp [validLimit]

end DataSecurityApi

namespace DataSecurityApi

/-- C3: each update handler either leaves the store untouched (an error
path) or performs exactly one write round-trip, the atomic
single-document `$set` update whose set document is built from the
request input alone; the PATCH handler delegates to PUT; and no handler
issues more than one write round-trip. -/
theorem C3_single_atomic_update :
    ∀ (s : Store) (pid : String) (u : ProductUpdate) (t : Timestamp)
      (stk : Int) (p : ProductCreate) (b : BookCreate) (t1 t2 : Timestamp)
      (ids : List String) (skip limit : Nat) (cat srch : Option String)
      (minp maxp : Option ℚ) (cname : String),
      (writesOf (update_product s pid u t) = [] ∧
         storeOf (update_product s pid u t) = s ∨
       writesOf (update_product s pid u t) =
           [.updateOne (ObjectId.ofString pid) u t] ∧
         storeOf (update_product s pid u t) =
           (s.updateOne (ObjectId.ofString pid) u t).1) ∧
      patch_product s pid u t = update_product s pid u t ∧
      (writesOf (update_stock s pid stk t) = [] ∧
         storeOf (update_stock s pid stk t) = s ∨
       writesOf (update_stock s pid stk t) =
           [.updateOne (ObjectId.ofString pid) (stockSet stk) t] ∧
         storeOf (update_stock s pid stk t) =
           (s.updateOne (ObjectId.ofString pid) (stockSet stk) t).1) ∧
      (writesOf (create_product s p t1 t2)).length ≤ 1 ∧
      (writesOf (create_book s b t1 t2)).length ≤ 1 ∧
      (writesOf (delete_product s pid)).length ≤ 1 ∧
      (writesOf (delete_products s ids)).length ≤ 1 ∧
      writesOf (get_products s skip limit cat minp maxp srch) = [] ∧
      writesOf (get_product s pid) = [] ∧
      writesOf (get_products_by_category s cname skip limit) = [] ∧
      writesOf (get_product_count s cat) = [] ∧
      writesOf (get_categories s) = [] ∧
      writesOf (get_price_range s cat) = [] ∧
      writesOf (get_books s) = [] ∧
      writesOf (get_books_names s) = [] := by
  intro s pid u t stk p b t1 t2 ids skip limit cat srch minp maxp cname
  refine ⟨?_, rfl, ?_, ?_, ?_, ?_, ?_, ?_, ?_, ?_, ?_, ?_, ?_, ?_, ?_⟩
  · by_cases hv : ObjectId.is_valid pid
    · cases hfind : s.findOne (ObjectId.ofString pid) with
      | none =>
          left; simp [update_product, hv, hfind, writesOf, storeOf, DbOp.isWrite]
      | some d =>
          by_cases he : u.isEmpty
          · left
            simp [update_product, hv, hfind, he, writesOf, storeOf, DbOp.isWrite]
          · right
            cases hf2 : (s.updateOne (ObjectId.ofString pid) u t).1.findOne
                (ObjectId.ofString pid) with
            | none =>
                simp [update_product, updateAndReturn, hv, hfind, he, hf2,
                  writesOf, storeOf, DbOp.isWrite]
            | some d2 =>
                simp [update_product, updateAndReturn, hv, hfind, he, hf2,
                  writesOf, storeOf, DbOp.isWrite]
    · left; simp [update_product, hv, writesOf, storeOf]
  · by_cases hv : ObjectId.is_valid pid
    · by_cases hm :
        (s.updateOne (ObjectId.ofString pid) (stockSet stk) t).2 == 0
      · right; simp [update_stock, hv, hm, writesOf, storeOf, DbOp.isWrite]
      · right
        cases hf2 : (s.updateOne (ObjectId.ofString pid) (stockSet stk) t).1.findOne
            (ObjectId.ofString pid) with
        | none =>
            simp [update_stock, hv, hm, hf2, writesOf, storeOf, DbOp.isWrite]
        | some d2 =>
            simp [update_stock, hv, hm, hf2, writesOf, storeOf, DbOp.isWrite]
    · left; simp [update_stock, hv, writesOf, storeOf]
  · cases hf : Store.findOne
        ⟨s.docs ++ [⟨s.nextId, p.name, p.description, p.price, p.category,
          p.stock, t1, t2⟩], s.nextId + 1⟩ s.nextId with
    | none => simp [create_product, hf, writesOf, DbOp.isWrite]
    | some d => simp [create_product, hf, writesOf, DbOp.isWrite]
  · cases hf : Store.findOne
        ⟨s.docs ++ [⟨s.nextId, b.name, b.description, b.price, b.category,
          b.stock, t1, t2⟩], s.nextId + 1⟩ s.nextId with
    | none => simp [create_book, hf, writesOf, DbOp.isWrite]
    | some d => simp [create_book, hf, writesOf, DbOp.isWrite]
  · by_cases hv : ObjectId.is_valid pid
    · by_cases hm : (s.deleteOne (ObjectId.ofString pid)).2 == 0
      · simp [delete_product, hv, hm, writesOf, DbOp.isWrite]
      · simp [delete_product, hv, hm, writesOf, DbOp.isWrite]
    · simp [delete_product, hv, writesOf]
  · by_cases hm :
      ((ids.filter ObjectId.is_valid).map ObjectId.ofString).isEmpty
    · simp [delete_products, hm, writesOf]
    · simp [delete_products, hm, writesOf, DbOp.isWrite]
  · simp [get_products, writesOf, DbOp.isWrite]
  · by_cases hv : ObjectId.is_valid pid
    · cases hfind : s.findOne (ObjectId.ofString pid) with
      | none => simp [get_product, hv, hfind, writesOf, DbOp.isWrite]
      | some d => simp [get_product, hv, hfind, writesOf, DbOp.isWrite]
    · simp [get_product, hv, writesOf]
  · by_cases hm : (((s.docs.filter
        (fun d => d.category == cname)).drop skip).take limit).isEmpty
    · simp [get_products_by_category, hm, writesOf, DbOp.isWrite]
    · simp [get_products_by_category, hm, writesOf, DbOp.isWrite]
  · simp [get_product_count, writesOf, DbOp.isWrite]
  · simp [get_categories, writesOf, DbOp.isWrite]
  · cases hm : statsDocs s cat with
    | nil => simp [get_price_range, hm, writesOf, DbOp.isWrite]
    | cons d rest => simp [get_price_range, hm, writesOf, DbOp.isWrite]
  · simp [get_books, writesOf, DbOp.isWrite]
  · simp [get_books_names, writesOf, DbOp.isWrite]

/-- C5: `get_product` rejects a malformed id with the 400
MalformedIdentifier outcome and an empty round-trip trace, and answers a
well-formed id naming no stored document with the 404 NotFound outcome. -/
theorem C5_id_validation :
    ∀ (s : Store) (pid : String),
      (ObjectId.is_valid pid = false →
        resOf (get_product s pid) = .error malformedIdError ∧
        traceOf (get_product s pid) = []) ∧
      (ObjectId.is_valid pid = true →
        s.findOne (ObjectId.ofString pid) = none →
        resOf (get_product s pid) = .error (productNotFound pid)) := by
  intro s pid
  constructor
  · intro hv; constructor <;> simp [get_product, hv, resOf, traceOf]
  · intro hv hnone; simp [get_product, hv, hnone, resOf]

/-- C5, closed instance. -/
theorem C5_witness :
    (resOf (get_product sampleStore "not-a-valid-id") = .error malformedIdError ∧
     traceOf (get_product sampleStore "not-a-valid-id") = []) ∧
    resOf (get_product sampleStore unusedIdStr) =
      .error (productNotFound unusedIdStr) :=
  ⟨(C5_id_validation sampleStore "not-a-valid-id").1 (by decide),
   (C5_id_validation sampleStore unusedIdStr).2 (by decide) (by decide)⟩

/-- C6: on an existing, well-formed id, `update_product` with a partial
input having zero fields set fails with the 400 EmptyUpdate outcome and
leaves the store unchanged. -/
theorem C6_empty_update :
    ∀ (s : Store) (pid : String) (u : ProductUpdate) (t : Timestamp),
      ObjectId.is_valid pid = true →
      (s.findOne (ObjectId.ofString pid)).isSome = true →
      u.isEmpty = true →
      resOf (update_product s pid u t) = .error emptyUpdateError ∧
      storeOf (update_product s pid u t) = s := by
  intro s pid u t hv hsome he
  cases hfind : s.findOne (ObjectId.ofString pid) with
  | none => rw [hfind] at hsome; simp at hsome
  | some d => constructor <;> simp [update_product, hv, hfind, he, resOf, storeOf]

/-- C6, closed instance. -/
theorem C6_witness :
    resOf (update_product sampleStore zeroIdStr ⟨none, none, none, none, none⟩ 9) =
      .error emptyUpdateError ∧
    storeOf (update_product sampleStore zeroIdStr ⟨none, none, none, none, none⟩ 9) =
      sampleStore :=
  C6_empty_update sampleStore zeroIdStr ⟨none, none, none, none, none⟩ 9
    (by decide) (by decide) (by decide)

end DataSecurityApi

namespace DataSecurityApi

/-- C4: the general listing answers zero matches with an empty 200
sequence, while the by-category listing answers zero matches with the
404 NotFound outcome. -/
theorem C4_empty_result_asymmetry :
    ∀ (s : Store) (skip limit : Nat) (cat srch : Option String)
      (minp maxp : Option ℚ) (cname : String),
      (s.docs.filter (matchesFilter cat minp maxp srch) = [] →
        resOf (get_products s skip limit cat minp maxp srch) = .ok []) ∧
      (s.docs.filter (fun d => d.category == cname) = [] →
        resOf (get_products_by_category s cname skip limit) =
          .error (.notFound ("No products found in category: " ++ cname))) := by
  intro s skip limit cat srch minp maxp cname
  constructor
  · intro h
    simp [get_products, pageOf, h, sortByNewest, resOf]
  · intro h
    simp [get_products_by_category, h, resOf]

/-- C4, closed instance: no document of the sample store has category
"books". -/
theorem C4_witness :
    resOf (get_products sampleStore 0 10 (some "books") none none none) =
      .ok [] ∧
    resOf (get_products_by_category sampleStore "books" 0 10) =
      .error (.notFound ("No products found in category: " ++ "books")) :=
  ⟨(C4_empty_result_asymmetry sampleStore 0 10 (some "books") none none none
      "books").1 (by decide),
   (C4_empty_result_asymmetry sampleStore 0 10 (some "books") none none none
      "books").2 (by decide)⟩

theorem find?_updateDocs (l : List ProductDoc) (i : Nat) (u : ProductUpdate)
    (t : Timestamp) :
    (updateDocs i u t l).find? (fun d => d.id == i) =
      (l.find? (fun d => d.id == i)).map (applySet u t) := by
  induction l with
  | nil => simp [updateDocs]
  | cons d ds ih =>
      by_cases h : (d.id == i) = true
      · have hid : (applySet u t d).id = d.id := rfl
        simp [updateDocs, h, List.find?, hid]
      · simp [updateDocs, h, List.find?, ih]

/-- C8: on an existing, well-formed id and a non-empty partial input,
`update_product` stores and returns exactly the `$set` image of the
pre-update document: supplied fields take their supplied values,
`updated_at` takes the refresh timestamp, and every other field —
including `id` and `created_at` — is unchanged. -/
theorem C8_partial_update_frame :
    ∀ (s : Store) (pid : String) (u : ProductUpdate) (t : Timestamp)
      (d : ProductDoc),
      ObjectId.is_valid pid = true →
      s.findOne (ObjectId.ofString pid) = some d →
      u.isEmpty = false →
      resOf (update_product s pid u t) = .ok (product_helper (applySet u t d)) ∧
      (storeOf (update_product s pid u t)).findOne (ObjectId.ofString pid) =
        some (applySet u t d) ∧
      (applySet u t d).id = d.id ∧
      (applySet u t d).created_at = d.created_at ∧
      (applySet u t d).updated_at = t ∧
      (applySet u t d).name = u.name.getD d.name ∧
      (applySet u t d).description = u.description.getD d.description ∧
      (applySet u t d).price = u.price.getD d.price ∧
      (applySet u t d).category = u.category.getD d.category ∧
      (applySet u t d).stock = u.stock.getD d.stock := by
  intro s pid u t d hv hfind he
  have hupd : (s.updateOne (ObjectId.ofString pid) u t).1.findOne
      (ObjectId.ofString pid) = some (applySet u t d) := by
    simp only [Store.updateOne, Store.findOne, find?_updateDocs]
    rw [show s.docs.find? (fun x => x.id == ObjectId.ofString pid) = some d from hfind]
    rfl
  refine ⟨?_, ?_, rfl, rfl, rfl, rfl, rfl, rfl, rfl, rfl⟩
  · simp [update_product, hv, hfind, he, updateAndReturn, hupd, resOf]
  · simp [update_product, hv, hfind, he, updateAndReturn, hupd, storeOf]

/-- C8, closed instance: updating name and stock of the sample document. -/
theorem C8_witness :
    resOf (update_product sampleStore zeroIdStr
        ⟨some "Pencil", none, none, none, some 7⟩ 9) =
      .ok (product_helper (applySet ⟨some "Pencil", none, none, none, some 7⟩ 9
        sampleDoc)) ∧
    (storeOf (update_product sampleStore zeroIdStr
        ⟨some "Pencil", none, none, none, some 7⟩ 9)).findOne
        (ObjectId.ofString zeroIdStr) =
      some (applySet ⟨some "Pencil", none, none, none, some 7⟩ 9 sampleDoc) ∧
    (applySet ⟨some "Pencil", none, none, none, some 7⟩ 9 sampleDoc).id =
      sampleDoc.id ∧
    (applySet ⟨some "Pencil", none, none, none, some 7⟩ 9 sampleDoc).created_at =
      sampleDoc.created_at ∧
    (applySet ⟨some "Pencil", none, none, none, some 7⟩ 9 sampleDoc).updated_at =
      9 ∧
    (applySet ⟨some "Pencil", none, none, none, some 7⟩ 9 sampleDoc).name =
      (some "Pencil").getD sampleDoc.name ∧
    (applySet ⟨some "Pencil", none, none, none, some 7⟩ 9 sampleDoc).description =
      Option.getD none sampleDoc.description ∧
    (applySet ⟨some "Pencil", none, none, none, some 7⟩ 9 sampleDoc).price =
      Option.getD none sampleDoc.price ∧
    (applySet ⟨some "Pencil", none, none, none, some 7⟩ 9 sampleDoc).category =
      Option.getD none sampleDoc.category ∧
    (applySet ⟨some "Pencil", none, none, none, some 7⟩ 9 sampleDoc).stock =
      (some (7 : Int)).getD sampleDoc.stock :=
  C8_partial_update_frame sampleStore zeroIdStr
    ⟨some "Pencil", none, none, none, some 7⟩ 9 sampleDoc
    (by decide) (by decide) (by decide)

end DataSecurityApi

namespace DataSecurityApi

theorem charsLead_iff (p h : List Char) :
    charsLead p h = true ↔ ∃ r, h = p ++ r := by
  induction p generalizing h with
  | nil => simp [charsLead]
  | cons a as ih =>
      cases h with
      | nil => simp [charsLead]
      | cons b bs =>
          constructor
          · intro hl
            rw [show charsLead (a :: as) (b :: bs) = (a == b && charsLead as bs)
                from rfl, Bool.and_eq_true, beq_iff_eq] at hl
            obtain ⟨hab, htl⟩ := hl
            obtain ⟨r, hr⟩ := (ih bs).mp htl
            exact ⟨r, by rw [List.cons_append, ← hab, hr]⟩
          · rintro ⟨r, hr⟩
            rw [List.cons_append] at hr
            injection hr with h1 h2
            rw [show charsLead (a :: as) (b :: bs) = (a == b && charsLead as bs)
                from rfl, Bool.and_eq_true, beq_iff_eq]
            exact ⟨h1.symm, (ih bs).mpr ⟨r, h2⟩⟩

theorem charsContain_iff (p h : List Char) :
    charsContain p h = true ↔ ∃ l r, h = l ++ p ++ r := by
  induction h with
  | nil =>
      rw [show charsContain p [] = p.isEmpty from rfl]
      constructor
      · intro hp
        rw [List.isEmpty_iff] at hp
        exact ⟨[], [], by simp [hp]⟩
      · rintro ⟨l, r, hr⟩
        have h1 := List.append_eq_nil.mp hr.symm
        have h2 := (List.append_eq_nil.mp h1.1).2
        simp [h2]
  | cons b bs ih =>
      rw [show charsContain p (b :: bs) =
          (charsLead p (b :: bs) || charsContain p bs) from rfl,
        Bool.or_eq_true, charsLead_iff, ih]
      constructor
      · rintro (⟨r, hr⟩ | ⟨l, r, hr⟩)
        · exact ⟨[], r, by simpa using hr⟩
        · exact ⟨b :: l, r, by simp [hr]⟩
      · rintro ⟨l, r, hr⟩
        cases l with
        | nil => exact .inl ⟨r, by simpa using hr⟩
        | cons x xs =>
            rw [List.cons_append, List.cons_append] at hr
            injection hr with h1 h2
            exact .inr ⟨xs, r, by simpa using h2⟩

theorem catComponent_iff (cat : Option String) (d : ProductDoc)
    (h : cat ≠ some "") :
    ((if truthy cat then d.category == cat.getD "" else true) = true ↔
      ∀ c, cat = some c → d.category = c) := by
  cases cat with
  | none => simp [truthy]
  | some c =>
      by_cases hc : c = ""
      · exact absurd (by rw [hc]) h
      · have hE : c.isEmpty = false := by
          cases hE : c.isEmpty
          · rfl
          · exact absurd ((String.isEmpty_iff c).mp hE) hc
        simp [truthy, hE]

theorem minComponent_iff (minp : Option ℚ) (d : ProductDoc) :
    ((match minp with
      | some m => decide (m ≤ d.price)
      | none => true) = true ↔ ∀ m, minp = some m → m ≤ d.price) := by
  cases minp <;> simp

theorem maxComponent_iff (maxp : Option ℚ) (d : ProductDoc) :
    ((match maxp with
      | some m => decide (d.price ≤ m)
      | none => true) = true ↔ ∀ m, maxp = some m → d.price ≤ m) := by
  cases maxp <;> simp

theorem srchComponent_iff (srch : Option String) (d : ProductDoc)
    (h : srch ≠ some "") :
    ((if truthy srch then
        containsCI d.name (srch.getD "") || containsCI d.description (srch.getD "")
      else true) = true ↔
      ∀ q, srch = some q →
        (∃ l r, lowerData d.name = l ++ lowerData q ++ r) ∨
        (∃ l r, lowerData d.description = l ++ lowerData q ++ r)) := by
  cases srch with
  | none => simp [truthy]
  | some q =>
      by_cases hq : q = ""
      · exact absurd (by rw [hq]) h
      · have hE : q.isEmpty = false := by
          cases hE : q.isEmpty
          · rfl
          · exact absurd ((String.isEmpty_iff q).mp hE) hq
        simp [truthy, hE, containsCI, Bool.or_eq_true, charsContain_iff]

end DataSecurityApi

namespace DataSecurityApi

theorem mem_insertDesc (y d : ProductDoc) (l : List ProductDoc) :
    y ∈ insertDesc d l ↔ y = d ∨ y ∈ l := by
  induction l with
  | nil => simp [insertDesc]
  | cons x xs ih =>
      by_cases h : x.created_at ≤ d.created_at
      · simp [insertDesc, h]
      · simp [insertDesc, h, ih]
        tauto

theorem insertDesc_pairwise (d : ProductDoc) (l : List ProductDoc)
    (hl : l.Pairwise (fun a b => b.created_at ≤ a.created_at)) :
    (insertDesc d l).Pairwise (fun a b => b.created_at ≤ a.created_at) := by
  induction l with
  | nil => simp [insertDesc]
  | cons x xs ih =>
      rw [List.pairwise_cons] at hl
      obtain ⟨hx, hxs⟩ := hl
      by_cases h : x.created_at ≤ d.created_at
      · rw [insertDesc, if_pos h]
        refine List.pairwise_cons.mpr ⟨?_, List.pairwise_cons.mpr ⟨hx, hxs⟩⟩
        intro y hy
        rcases List.mem_cons.mp hy with rfl | hy
        · exact h
        · exact le_trans (hx y hy) h
      · rw [insertDesc, if_neg h]
        refine List.pairwise_cons.mpr ⟨?_, ih hxs⟩
        intro y hy
        rcases (mem_insertDesc y d xs).mp hy with rfl | hy
        · exact Nat.le_of_lt (Nat.lt_of_not_le h)
        · exact hx y hy

theorem sortByNewest_pairwise (l : List ProductDoc) :
    (sortByNewest l).Pairwise (fun a b => b.created_at ≤ a.created_at) := by
  induction l with
  | nil => simp [sortByNewest]
  | cons d ds ih => exact insertDesc_pairwise d (sortByNewest ds) ih

/-- C7: the list filter is the conjunction of exact category match,
optional price bounds and case-insensitive substring search over name or
description; the served page is sorted newest-first by `created_at`; an
inverted price range yields the empty sequence as a success. -/
theorem C7_list_filter_sort :
    ∀ (s : Store) (skip limit : Nat) (cat srch : Option String)
      (minp maxp : Option ℚ) (a b : ℚ) (d : ProductDoc),
      (cat ≠ some "" → srch ≠ some "" →
        (matchesFilter cat minp maxp srch d = true ↔
          SpecMatch cat minp maxp srch d)) ∧
      resOf (get_products s skip limit cat minp maxp srch) =
        .ok ((pageOf s skip limit cat minp maxp srch).map product_helper) ∧
      ((pageOf s skip limit cat minp maxp srch).map product_helper).Pairwise
        (fun x y => y.created_at ≤ x.created_at) ∧
      (b < a →
        resOf (get_products s skip limit cat (some a) (some b) srch) = .ok []) := by
  intro s skip limit cat srch minp maxp a b d
  refine ⟨?_, rfl, ?_, ?_⟩
  · intro hcat hsrch
    unfold matchesFilter SpecMatch
    rw [Bool.and_eq_true, Bool.and_eq_true, Bool.and_eq_true, and_assoc, and_assoc]
    exact and_congr (catComponent_iff cat d hcat)
      (and_congr (minComponent_iff minp d)
        (and_congr (maxComponent_iff maxp d) (srchComponent_iff srch d hsrch)))
  · rw [List.pairwise_map]
    refine List.Pairwise.sublist ?_ (sortByNewest_pairwise
      (s.docs.filter (matchesFilter cat minp maxp srch)))
    exact ((List.take_sublist _ _).trans (List.drop_sublist _ _))
  · intro hba
    have hfil : s.docs.filter (matchesFilter cat (some a) (some b) srch) = [] := by
      rw [List.filter_eq_nil_iff]
      intro x _ hx
      unfold matchesFilter at hx
      rw [Bool.and_eq_true, Bool.and_eq_true, Bool.and_eq_true] at hx
      have h1 : a ≤ x.price := of_decide_eq_true hx.1.1.2
      have h2 : x.price ≤ b := of_decide_eq_true hx.1.2
      exact absurd (le_trans h1 h2) (not_le.mpr hba)
    simp [get_products, pageOf, hfil, sortByNewest, resOf]

/-- C7, closed instance: the sample store, a price range 1–3 with search
"ink" and category "office", and the inverted range min 10, max 5. -/
theorem C7_witness :
    (matchesFilter (some "office") (some 1) (some 3) (some "ink") sampleDoc = true ↔
      SpecMatch (some "office") (some 1) (some 3) (some "ink") sampleDoc) ∧
    resOf (get_products sampleStore 0 10 (some "office") (some 1) (some 3)
        (some "ink")) =
      .ok ((pageOf sampleStore 0 10 (some "office") (some 1) (some 3)
        (some "ink")).map product_helper) ∧
    ((pageOf sampleStore 0 10 (some "office") (some 1) (some 3)
        (some "ink")).map product_helper).Pairwise
      (fun x y => y.created_at ≤ x.created_at) ∧
    resOf (get_products sampleStore 0 10 (some "office") (some 10) (some 5)
        (some "ink")) = .ok [] := by
  have h := C7_list_filter_sort sampleStore 0 10 (some "office") (some "ink")
    (some 1) (some 3) 10 5 sampleDoc
  exact ⟨h.1 (by decide) (by decide), h.2.1, h.2.2.1, h.2.2.2 (by decide)⟩

end DataSecurityApi

namespace DataSecurityApi

theorem foldlMin_le_init (l : List ℚ) (a : ℚ) : l.foldl min a ≤ a := by
  induction l generalizing a with
  | nil => simp
  | cons x xs ih => exact le_trans (ih (min a x)) (min_le_left a x)

theorem foldlMin_le_mem (l : List ℚ) (a x : ℚ) (hx : x ∈ l) :
    l.foldl min a ≤ x := by
  induction l generalizing a with
  | nil => cases hx
  | cons y ys ih =>
      rcases List.mem_cons.mp hx with rfl | h
      · exact le_trans (foldlMin_le_init ys (min a x)) (min_le_right a x)
      · exact ih (min a y) h

theorem foldlMin_mem (l : List ℚ) (a : ℚ) :
    l.foldl min a = a ∨ l.foldl min a ∈ l := by
  induction l generalizing a with
  | nil => left; rfl
  | cons x xs ih =>
      rw [show (x :: xs).foldl min a = xs.foldl min (min a x) from rfl]
      rcases ih (min a x) with h | h
      · rcases min_choice a x with h2 | h2
        · left; rw [h, h2]
        · right; rw [h, h2]; exact List.mem_cons_self x xs
      · right; exact List.mem_cons_of_mem x h

theorem foldlMax_init_le (l : List ℚ) (a : ℚ) : a ≤ l.foldl max a := by
  induction l generalizing a with
  | nil => simp
  | cons x xs ih => exact le_trans (le_max_left a x) (ih (max a x))

theorem foldlMax_mem_le (l : List ℚ) (a x : ℚ) (hx : x ∈ l) :
    x ≤ l.foldl max a := by
  induction l generalizing a with
  | nil => cases hx
  | cons y ys ih =>
      rcases List.mem_cons.mp hx with rfl | h
      · exact le_trans (le_max_right a x) (foldlMax_init_le ys (max a x))
      · exact ih (max a y) h

theorem foldlMax_mem (l : List ℚ) (a : ℚ) :
    l.foldl max a = a ∨ l.foldl max a ∈ l := by
  induction l generalizing a with
  | nil => left; rfl
  | cons x xs ih =>
      rw [show (x :: xs).foldl max a = xs.foldl max (max a x) from rfl]
      rcases ih (max a x) with h | h
      · rcases max_choice a x with h2 | h2
        · left; rw [h, h2]
        · right; rw [h, h2]; exact List.mem_cons_self x xs
      · right; exact List.mem_cons_of_mem x h

end DataSecurityApi

namespace DataSecurityApi

/-- C9: with at least one matching document, `get_price_range` returns
the minimum, maximum and 2-place-rounded arithmetic mean of `price` over
the optionally category-filtered documents, together with their count;
with no matching document it returns the "No products found" signal
(`.ok none`) instead of statistics. -/
theorem C9_price_statistics :
    ∀ (s : Store) (cat : Option String),
      (statsDocs s cat = [] → resOf (get_price_range s cat) = .ok none) ∧
      (statsDocs s cat ≠ [] →
        ∃ st, resOf (get_price_range s cat) = .ok (some (st, cat)) ∧
          st.total_products = (statsDocs s cat).length ∧
          st.min_price ∈ (statsDocs s cat).map (fun d => d.price) ∧
          (∀ p ∈ (statsDocs s cat).map (fun d => d.price), st.min_price ≤ p) ∧
          st.max_price ∈ (statsDocs s cat).map (fun d => d.price) ∧
          (∀ p ∈ (statsDocs s cat).map (fun d => d.price), p ≤ st.max_price) ∧
          st.avg_price = round2 (((statsDocs s cat).map (fun d => d.price)).sum /
            (((statsDocs s cat).length : ℚ)))) := by
  intro s cat
  cases hm : statsDocs s cat with
  | nil =>
      constructor
      · intro _; simp [get_price_range, hm, resOf]
      · intro hne; exact absurd rfl hne
  | cons d rest =>
      constructor
      · intro h; exact absurd h (by simp)
      · intro _
        refine ⟨{ min_price := ((d :: rest).map (fun x => x.price)).foldl min d.price
                  max_price := ((d :: rest).map (fun x => x.price)).foldl max d.price
                  avg_price := round2 ((((d :: rest).map (fun x => x.price)).sum) /
                    (((d :: rest).length : ℚ)))
                  total_products := (d :: rest).length }, ?_, rfl, ?_, ?_, ?_, ?_, rfl⟩
        · simp [get_price_range, hm, resOf]
        · rcases foldlMin_mem ((d :: rest).map (fun x => x.price)) d.price with h | h
          · rw [h]; exact List.mem_map_of_mem _ (List.mem_cons_self d rest)
          · exact h
        · intro p hp
          exact foldlMin_le_mem _ _ _ hp
        · rcases foldlMax_mem ((d :: rest).map (fun x => x.price)) d.price with h | h
          · rw [h]; exact List.mem_map_of_mem _ (List.mem_cons_self d rest)
          · exact h
        · intro p hp
          exact foldlMax_mem_le _ _ _ hp

/-- C9, closed instance: one matching document for the unfiltered call,
zero for category "books". -/
theorem C9_witness :
    (∃ st, resOf (get_price_range sampleStore none) = .ok (some (st, none)) ∧
      st.total_products = (statsDocs sampleStore none).length ∧
      st.min_price ∈ (statsDocs sampleStore none).map (fun d => d.price) ∧
      (∀ p ∈ (statsDocs sampleStore none).map (fun d => d.price),
        st.min_price ≤ p) ∧
      st.max_price ∈ (statsDocs sampleStore none).map (fun d => d.price) ∧
      (∀ p ∈ (statsDocs sampleStore none).map (fun d => d.price),
        p ≤ st.max_price) ∧
      st.avg_price = round2 (((statsDocs sampleStore none).map
        (fun d => d.price)).sum / (((statsDocs sampleStore none).length : ℚ)))) ∧
    resOf (get_price_range sampleStore (some "books")) = .ok none :=
  ⟨(C9_price_statistics sampleStore none).2 (by decide),
   (C9_price_statistics sampleStore (some "books")).1 (by decide)⟩

/-- C10: a supplied empty-string category is not truthy, so the list,
count and price-statistics handlers treat it exactly as an absent
category filter and range over all documents (the count and statistics
payloads are compared with the echoed category parameter projected
away). -/
theorem C10_empty_category_ignored :
    ∀ (s : Store) (skip limit : Nat) (minp maxp : Option ℚ)
      (srch : Option String),
      get_products s skip limit (some "") minp maxp srch =
        get_products s skip limit none minp maxp srch ∧
      (resOf (get_product_count s (some ""))).map Prod.fst =
        (resOf (get_product_count s none)).map Prod.fst ∧
      (resOf (get_price_range s (some ""))).map (Option.map Prod.fst) =
        (resOf (get_price_range s none)).map (Option.map Prod.fst) := by
  intro s skip limit minp maxp srch
  have he : "".isEmpty = true := by decide
  refine ⟨?_, ?_, ?_⟩
  · have hmf : matchesFilter (some "") minp maxp srch =
        matchesFilter none minp maxp srch := by
      funext d
      simp [matchesFilter, truthy, he]
    simp [get_products, pageOf, hmf]
  · rfl
  · have h : statsDocs s (some "") = statsDocs s none := by
      simp [statsDocs, truthy, he]
    cases hd : statsDocs s none with
    | nil => simp only [get_price_range, h, hd, resOf]
    | cons d rest =>
        simp only [get_price_range, h, hd, resOf]
        rfl

end DataSecurityApi
